import Mathlib

/-!
Shallow embedding of the core value types of the `etib-corp/utility` C++
library (`src/headers/utility/math/vector.hpp`,
`src/headers/utility/math/rectangle.hpp`, `src/headers/color.hpp`) and
proofs of the specified properties.

Modelling conventions:
* C++ exceptions (`std::invalid_argument`, `std::out_of_range`,
  `std::runtime_error`) become `Except Err` results with the matching
  `Err` constructor.
* `Rectangle<int>` is embedded over `Int`; C++ `int` division truncates
  toward zero, which is `Int.tdiv`.
* `Color<float>` is embedded over `ℚ` (exact arithmetic on the stored
  values) and `Color<int>` over `Int`.
* `Vector<float, n>` is embedded as `Fin n → ℝ`, with `Real.sqrt` for
  `std::sqrt`.
-/

namespace Utility

/-- Error kinds thrown by the library: `std::invalid_argument`,
`std::out_of_range`, `std::runtime_error`. -/
inductive Err where
  | invalidArgument
  | outOfRange
  | runtimeFailure
deriving DecidableEq

/-- Embedding of `utility::math::Vector<int, 2>` as a pair of components. -/
structure Vec2 where
  c0 : Int
  c1 : Int
deriving DecidableEq

/-- Unary `operator-` of `Vector` (component-wise negation). -/
def Vec2.neg (v : Vec2) : Vec2 := ⟨-v.c0, -v.c1⟩

/-- Embedding of `utility::math::Rectangle<int>`: `_position = (px, py)`,
`_size = (sw, sh)`. -/
structure Rect where
  px : Int
  py : Int
  sw : Int
  sh : Int
deriving DecidableEq

/-- Checked constructor `Rectangle(x, y, width, height)`: throws
`std::invalid_argument` when `width < 0 || height < 0`. -/
def mkRectangle (x y width height : Int) : Except Err Rect :=
  if width < 0 ∨ height < 0 then .error .invalidArgument
  else .ok ⟨x, y, width, height⟩

/-- Checked constructor `Rectangle(position, size)` from two vectors:
throws `std::invalid_argument` when `_size[0] < 0 || _size[1] < 0`. -/
def mkRectangleFromVectors (position size : Vec2) : Except Err Rect :=
  if size.c0 < 0 ∨ size.c1 < 0 then .error .invalidArgument
  else .ok ⟨position.c0, position.c1, size.c0, size.c1⟩

/-- C++ `Rectangle::right() = _position[0] + _size[0]`. -/
def Rect.right (r : Rect) : Int := r.px + r.sw

/-- C++ `Rectangle::bottom() = _position[1] + _size[1]`. -/
def Rect.bottom (r : Rect) : Int := r.py + r.sh

/-- C++ `Rectangle::centerX() = _position[0] + _size[0] / Type{2}` with C++
`int` division (truncation toward zero, `Int.tdiv`). -/
def Rect.centerX (r : Rect) : Int := r.px + Int.tdiv r.sw 2

/-- C++ `Rectangle::centerY() = _position[1] + _size[1] / Type{2}`. -/
def Rect.centerY (r : Rect) : Int := r.py + Int.tdiv r.sh 2

/-- C++ `Rectangle::setSize(size)`: throws `std::invalid_argument` on a
negative component, otherwise replaces `_size`. -/
def Rect.setSize (r : Rect) (size : Vec2) : Except Err Rect :=
  if size.c0 < 0 ∨ size.c1 < 0 then .error .invalidArgument
  else .ok { r with sw := size.c0, sh := size.c1 }

/-- C++ `Rectangle::setWidth(width)`: throws `std::invalid_argument` when
`width < 0`, otherwise sets `_size[0]`. -/
def Rect.setWidth (r : Rect) (width : Int) : Except Err Rect :=
  if width < 0 then .error .invalidArgument
  else .ok { r with sw := width }

/-- C++ `Rectangle::setHeight(height)`: throws `std::invalid_argument` when
`height < 0`, otherwise sets `_size[1]`. -/
def Rect.setHeight (r : Rect) (height : Int) : Except Err Rect :=
  if height < 0 then .error .invalidArgument
  else .ok { r with sh := height }

/-- C++ `Rectangle::contains(point)`: `point[0] >= _position[0] &&
point[0] <= right() && point[1] >= _position[1] && point[1] <= bottom()`. -/
def Rect.contains (r : Rect) (point : Vec2) : Bool :=
  decide (point.c0 ≥ r.px) && decide (point.c0 ≤ r.right) &&
  decide (point.c1 ≥ r.py) && decide (point.c1 ≤ r.bottom)

/-- C++ `Rectangle::intersects(other)`: `!(_position[0] > other.right() ||
right() < other._position[0] || _position[1] > other.bottom() ||
bottom() < other._position[1])`. -/
def Rect.intersects (r other : Rect) : Bool :=
  !(decide (r.px > other.right) || decide (r.right < other.px) ||
    decide (r.py > other.bottom) || decide (r.bottom < other.py))

/-- C++ `Rectangle::translated(offset)`: builds a new rectangle through the
checked constructor at the shifted position with the same size. -/
def Rect.translated (r : Rect) (offset : Vec2) : Except Err Rect :=
  mkRectangle (r.px + offset.c0) (r.py + offset.c1) r.sw r.sh

/-- C++ `Rectangle::scaled(factor)`: throws `std::invalid_argument` when
`factor < 0`; otherwise builds, through the checked constructor, the
rectangle of size `_size * factor` re-centred on the old centre. -/
def Rect.scaled (r : Rect) (factor : Int) : Except Err Rect :=
  if factor < 0 then .error .invalidArgument
  else
    mkRectangle (r.centerX - Int.tdiv (r.sw * factor) 2)
      (r.centerY - Int.tdiv (r.sh * factor) 2)
      (r.sw * factor) (r.sh * factor)

/-- C++ `Rectangle::scale(factor)` (in place): throws `std::invalid_argument`
when `factor < 0`; otherwise mutates `_size` and recomputes `_position`
around the saved centre (no constructor check). -/
def Rect.scale (r : Rect) (factor : Int) : Except Err Rect :=
  if factor < 0 then .error .invalidArgument
  else
    .ok ⟨r.centerX - Int.tdiv (r.sw * factor) 2,
      r.centerY - Int.tdiv (r.sh * factor) 2,
      r.sw * factor, r.sh * factor⟩

/-- Claim C5: `contains` is the closed-box test, inclusive on all four
boundaries, and on `Rectangle<int>(0,0,10,10)` the point `(10,10)` is
contained while `(11,5)` is not. -/
theorem contains_iff_closed_box :
    (∀ (r : Rect) (p : Vec2),
      r.contains p = true ↔
        r.px ≤ p.c0 ∧ p.c0 ≤ r.right ∧ r.py ≤ p.c1 ∧ p.c1 ≤ r.bottom) ∧
    (Rect.mk 0 0 10 10).contains ⟨10, 10⟩ = true ∧
    (Rect.mk 0 0 10 10).contains ⟨11, 5⟩ = false := by
  refine ⟨fun r p => ?_, by decide, by decide⟩
  simp [Rect.contains, and_assoc]

/-- Claim C9: for rectangles with non-negative sizes, `intersects` is
symmetric and every such rectangle intersects itself (touching edges
count as intersecting). -/
theorem intersects_symm_and_self (a b : Rect)
    (haw : 0 ≤ a.sw) (hah : 0 ≤ a.sh) (hbw : 0 ≤ b.sw) (hbh : 0 ≤ b.sh) :
    a.intersects b = b.intersects a ∧ a.intersects a = true := by
  constructor
  · rw [Bool.eq_iff_iff]
    simp only [Rect.intersects, Rect.right, Rect.bottom, Bool.not_eq_true',
      Bool.or_eq_false_iff, decide_eq_false_iff_not, not_lt, gt_iff_lt]
    omega
  · simp only [Rect.intersects, Rect.right, Rect.bottom, Bool.not_eq_true',
      Bool.or_eq_false_iff, decide_eq_false_iff_not, not_lt, gt_iff_lt]
    omega

/-- Witness for C9 at `a = Rectangle(0,0,4,4)`, `b = Rectangle(3,1,2,2)`:
both hypotheses hold and the conclusion is obtained from the theorem. -/
theorem intersects_symm_and_self_witness :
    (0 ≤ (Rect.mk 0 0 4 4).sw ∧ 0 ≤ (Rect.mk 0 0 4 4).sh ∧
      0 ≤ (Rect.mk 3 1 2 2).sw ∧ 0 ≤ (Rect.mk 3 1 2 2).sh) ∧
    ((Rect.mk 0 0 4 4).intersects (Rect.mk 3 1 2 2) =
        (Rect.mk 3 1 2 2).intersects (Rect.mk 0 0 4 4) ∧
      (Rect.mk 0 0 4 4).intersects (Rect.mk 0 0 4 4) = true) :=
  ⟨⟨by decide, by decide, by decide, by decide⟩,
    intersects_symm_and_self (Rect.mk 0 0 4 4) (Rect.mk 3 1 2 2)
      (by decide) (by decide) (by decide) (by decide)⟩

/-- Claim C7: for every integer rectangle with non-negative size and
every offset `d`, translating by `d` then by `-d` returns exactly the
original rectangle (`translated` never mutates its receiver: it is a
pure function of it). -/
theorem translated_round_trip (r : Rect) (d : Vec2)
    (hw : 0 ≤ r.sw) (hh : 0 ≤ r.sh) :
    (r.translated d).bind (fun s => s.translated d.neg) = .ok r := by
  simp only [Rect.translated, mkRectangle, Vec2.neg]
  rw [if_neg (by omega)]
  simp only [Except.bind]
  rw [if_neg (by omega)]
  congr 1
  cases r
  simp

/-- Witness for C7 at `Rectangle(5,7,3,4)` and `d = (-2, 9)`. -/
theorem translated_round_trip_witness :
    0 ≤ (Rect.mk 5 7 3 4).sw ∧ 0 ≤ (Rect.mk 5 7 3 4).sh ∧
    ((Rect.mk 5 7 3 4).translated ⟨-2, 9⟩).bind
      (fun s => s.translated (Vec2.neg ⟨-2, 9⟩)) = .ok (Rect.mk 5 7 3 4) :=
  ⟨by decide, by decide,
    translated_round_trip (Rect.mk 5 7 3 4) ⟨-2, 9⟩ (by decide) (by decide)⟩

/-- Claim C2: for a rectangle with non-negative size and a factor
`0 ≤ f`, both `scaled` and `scale` succeed with the same result, whose
centre coordinates (computed with truncating integer division)
equal the original centre exactly; a factor `f < 0` fails with the
`InvalidArgument` error kind. -/
theorem scale_preserves_center (r : Rect) (f : Int)
    (hw : 0 ≤ r.sw) (hh : 0 ≤ r.sh) :
    (0 ≤ f → ∃ s, r.scaled f = .ok s ∧ r.scale f = .ok s ∧
      s.centerX = r.centerX ∧ s.centerY = r.centerY) ∧
    (f < 0 → r.scaled f = .error .invalidArgument ∧
      r.scale f = .error .invalidArgument) := by
  constructor
  · intro hf
    refine ⟨⟨r.centerX - Int.tdiv (r.sw * f) 2, r.centerY - Int.tdiv (r.sh * f) 2,
      r.sw * f, r.sh * f⟩, ?_, ?_, ?_, ?_⟩
    · simp only [Rect.scaled, mkRectangle]
      rw [if_neg (by omega)]
      rw [if_neg (by push_neg; exact ⟨by positivity, by positivity⟩)]
    · simp only [Rect.scale]
      rw [if_neg (by omega)]
    · simp only [Rect.centerX]
      ring
    · simp only [Rect.centerY]
      ring
  · intro hf
    constructor
    · simp only [Rect.scaled]
      rw [if_pos hf]
    · simp only [Rect.scale]
      rw [if_pos hf]

/-- Witness for C2 at `Rectangle(1,2,5,8)` with factor `3`. -/
theorem scale_preserves_center_witness :
    0 ≤ (Rect.mk 1 2 5 8).sw ∧ 0 ≤ (Rect.mk 1 2 5 8).sh ∧
    ((0 ≤ (3 : Int) → ∃ s, (Rect.mk 1 2 5 8).scaled 3 = .ok s ∧
        (Rect.mk 1 2 5 8).scale 3 = .ok s ∧
        s.centerX = (Rect.mk 1 2 5 8).centerX ∧
        s.centerY = (Rect.mk 1 2 5 8).centerY) ∧
      ((3 : Int) < 0 → (Rect.mk 1 2 5 8).scaled 3 = .error .invalidArgument ∧
        (Rect.mk 1 2 5 8).scale 3 = .error .invalidArgument)) :=
  ⟨by decide, by decide,
    scale_preserves_center (Rect.mk 1 2 5 8) 3 (by decide) (by decide)⟩

/-- Claim C4: both rectangle constructors and the size-touching setters
(`setSize`, `setWidth`, `setHeight`) fail with the `InvalidArgument`
error kind exactly when a negative dimension is supplied; on failure no
rectangle is produced (nothing to observe mutated), and on success the
resulting state is the expected one. -/
theorem rect_negative_dimension_rejected (x y w h : Int) (p s : Vec2) (r : Rect) :
    (mkRectangle x y w h = .error .invalidArgument ↔ w < 0 ∨ h < 0) ∧
    (¬ (w < 0 ∨ h < 0) → mkRectangle x y w h = .ok ⟨x, y, w, h⟩) ∧
    (mkRectangleFromVectors p s = .error .invalidArgument ↔
      s.c0 < 0 ∨ s.c1 < 0) ∧
    (r.setSize s = .error .invalidArgument ↔ s.c0 < 0 ∨ s.c1 < 0) ∧
    (¬ (s.c0 < 0 ∨ s.c1 < 0) →
      r.setSize s = .ok ⟨r.px, r.py, s.c0, s.c1⟩) ∧
    (r.setWidth w = .error .invalidArgument ↔ w < 0) ∧
    (¬ w < 0 → r.setWidth w = .ok ⟨r.px, r.py, w, r.sh⟩) ∧
    (r.setHeight h = .error .invalidArgument ↔ h < 0) ∧
    (¬ h < 0 → r.setHeight h = .ok ⟨r.px, r.py, r.sw, h⟩) := by
  cases r
  refine ⟨?_, ?_, ?_, ?_, ?_, ?_, ?_, ?_, ?_⟩ <;>
    simp [mkRectangle, mkRectangleFromVectors, Rect.setSize, Rect.setWidth,
      Rect.setHeight] <;>
    omega

/-- Witness for C4 at non-negative dimensions `3, 4` on the rectangle
`Rectangle(0,0,10,10)`: the success clauses, with their hypotheses
discharged. -/
theorem rect_negative_dimension_rejected_witness :
    mkRectangle 0 1 3 4 = .ok ⟨0, 1, 3, 4⟩ ∧
    (Rect.mk 0 0 10 10).setSize ⟨3, 4⟩ = .ok ⟨0, 0, 3, 4⟩ ∧
    (Rect.mk 0 0 10 10).setWidth 3 = .ok ⟨0, 0, 3, 10⟩ ∧
    (Rect.mk 0 0 10 10).setHeight 4 = .ok ⟨0, 0, 10, 4⟩ :=
  ⟨(rect_negative_dimension_rejected 0 1 3 4 ⟨0, 0⟩ ⟨3, 4⟩
      (Rect.mk 0 0 10 10)).2.1 (by decide),
    (rect_negative_dimension_rejected 0 1 3 4 ⟨0, 0⟩ ⟨3, 4⟩
      (Rect.mk 0 0 10 10)).2.2.2.2.1 (by decide),
    (rect_negative_dimension_rejected 0 1 3 4 ⟨0, 0⟩ ⟨3, 4⟩
      (Rect.mk 0 0 10 10)).2.2.2.2.2.2.1 (by decide),
    (rect_negative_dimension_rejected 0 1 3 4 ⟨0, 0⟩ ⟨3, 4⟩
      (Rect.mk 0 0 10 10)).2.2.2.2.2.2.2.2 (by decide)⟩

/-- C++ `Color<float>::clamp(value) = std::max(0, std::min(1, value))`,
embedded over `ℚ`. -/
def clampF (value : ℚ) : ℚ := max 0 (min 1 value)

/-- C++ `Color<int>::clamp(value) = std::max(0, std::min(255, value))`. -/
def clampI (value : Int) : Int := max 0 (min 255 value)

/-- Embedding of `utility::Color<float>` (components over `ℚ`). -/
structure ColorF where
  red : ℚ
  green : ℚ
  blue : ℚ
  alpha : ℚ
deriving DecidableEq

/-- Embedding of `utility::Color<int>`. -/
structure ColorI where
  red : Int
  green : Int
  blue : Int
  alpha : Int
deriving DecidableEq

/-- C++ `Color(red, green, blue, alpha)`: every component clamped. -/
def ColorF.mk4 (red green blue alpha : ℚ) : ColorF :=
  ⟨clampF red, clampF green, clampF blue, clampF alpha⟩

/-- C++ `Color(red, green, blue)`: RGB clamped, alpha `= maxValue() = 1`. -/
def ColorF.mk3 (red green blue : ℚ) : ColorF :=
  ⟨clampF red, clampF green, clampF blue, 1⟩

/-- C++ `Color()`: opaque black. -/
def ColorF.mkDefault : ColorF := ⟨0, 0, 0, 1⟩

/-- C++ `Color::setRed`: `_red = clamp(red)`. -/
def ColorF.setRed (c : ColorF) (red : ℚ) : ColorF := { c with red := clampF red }

/-- C++ `Color::setGreen`. -/
def ColorF.setGreen (c : ColorF) (green : ℚ) : ColorF :=
  { c with green := clampF green }

/-- C++ `Color::setBlue`. -/
def ColorF.setBlue (c : ColorF) (blue : ℚ) : ColorF :=
  { c with blue := clampF blue }

/-- C++ `Color::setAlpha`. -/
def ColorF.setAlpha (c : ColorF) (alpha : ℚ) : ColorF :=
  { c with alpha := clampF alpha }

/-- C++ `Color::setRGBA`: all four components clamped. -/
def ColorF.setRGBA (_c : ColorF) (red green blue alpha : ℚ) : ColorF :=
  ⟨clampF red, clampF green, clampF blue, clampF alpha⟩

/-- C++ `Color::operator+`: `Color(clamp(_red + o._red), ..., _alpha)` (the
four-argument constructor clamps everything again). -/
def ColorF.add (c other : ColorF) : ColorF :=
  ColorF.mk4 (clampF (c.red + other.red)) (clampF (c.green + other.green))
    (clampF (c.blue + other.blue)) c.alpha

/-- C++ `Color::operator-`. -/
def ColorF.sub (c other : ColorF) : ColorF :=
  ColorF.mk4 (clampF (c.red - other.red)) (clampF (c.green - other.green))
    (clampF (c.blue - other.blue)) c.alpha

/-- C++ `Color::operator*` (scalar). -/
def ColorF.smul (c : ColorF) (scalar : ℚ) : ColorF :=
  ColorF.mk4 (clampF (c.red * scalar)) (clampF (c.green * scalar))
    (clampF (c.blue * scalar)) c.alpha

/-- C++ `Color::grayscale` (floating branch): luminance
`clamp(0.299 R + 0.587 G + 0.114 B)`, alpha preserved. -/
def ColorF.grayscale (c : ColorF) : ColorF :=
  let luminance := clampF (0.299 * c.red + 0.587 * c.green + 0.114 * c.blue)
  ColorF.mk4 luminance luminance luminance c.alpha

/-- C++ `Color::inverted`: `Color(max − R, max − G, max − B, _alpha)`. -/
def ColorF.inverted (c : ColorF) : ColorF :=
  ColorF.mk4 (1 - c.red) (1 - c.green) (1 - c.blue) c.alpha

/-- C++ `Color::lerp` (floating branch). -/
def ColorF.lerp (c other : ColorF) (t : ℚ) : ColorF :=
  let t2 := clampF t
  let oneMinusT := 1 - t2
  ColorF.mk4 (oneMinusT * c.red + t2 * other.red)
    (oneMinusT * c.green + t2 * other.green)
    (oneMinusT * c.blue + t2 * other.blue)
    (oneMinusT * c.alpha + t2 * other.alpha)

/-- C++ `Color::blendOver` (floating branch): channels
`a * this + (1 − a) * background`, alpha `a + (1 − a) * background_a`. -/
def ColorF.blendOver (c background : ColorF) : ColorF :=
  let a := c.alpha
  let oneMinusA := 1 - a
  ColorF.mk4 (a * c.red + oneMinusA * background.red)
    (a * c.green + oneMinusA * background.green)
    (a * c.blue + oneMinusA * background.blue)
    (a + oneMinusA * background.alpha)

/-- C++ `Color::lighter`: lerp toward `Color(max, max, max, _alpha)` by the
clamped factor. -/
def ColorF.lighter (c : ColorF) (factor : ℚ) : ColorF :=
  c.lerp (ColorF.mk4 1 1 1 c.alpha) (clampF factor)

/-- C++ `Color::darker`: lerp toward `Color(0, 0, 0, _alpha)`. -/
def ColorF.darker (c : ColorF) (factor : ℚ) : ColorF :=
  c.lerp (ColorF.mk4 0 0 0 c.alpha) (clampF factor)

/-- C++ `Color(red, green, blue, alpha)`, integral branch. -/
def ColorI.mk4 (red green blue alpha : Int) : ColorI :=
  ⟨clampI red, clampI green, clampI blue, clampI alpha⟩

/-- C++ `Color(red, green, blue)`, integral branch: alpha `= 255`. -/
def ColorI.mk3 (red green blue : Int) : ColorI :=
  ⟨clampI red, clampI green, clampI blue, 255⟩

/-- C++ `Color()`, integral branch: opaque black. -/
def ColorI.mkDefault : ColorI := ⟨0, 0, 0, 255⟩

/-- C++ `Color::setRed`, integral branch. -/
def ColorI.setRed (c : ColorI) (red : Int) : ColorI := { c with red := clampI red }

/-- C++ `Color::setGreen`, integral branch. -/
def ColorI.setGreen (c : ColorI) (green : Int) : ColorI :=
  { c with green := clampI green }

/-- C++ `Color::setBlue`, integral branch. -/
def ColorI.setBlue (c : ColorI) (blue : Int) : ColorI :=
  { c with blue := clampI blue }

/-- C++ `Color::setAlpha`, integral branch. -/
def ColorI.setAlpha (c : ColorI) (alpha : Int) : ColorI :=
  { c with alpha := clampI alpha }

/-- C++ `Color::setRGBA`, integral branch. -/
def ColorI.setRGBA (_c : ColorI) (red green blue alpha : Int) : ColorI :=
  ⟨clampI red, clampI green, clampI blue, clampI alpha⟩

/-- C++ `Color::operator+`, integral branch. -/
def ColorI.add (c other : ColorI) : ColorI :=
  ColorI.mk4 (clampI (c.red + other.red)) (clampI (c.green + other.green))
    (clampI (c.blue + other.blue)) c.alpha

/-- C++ `Color::operator-`, integral branch. -/
def ColorI.sub (c other : ColorI) : ColorI :=
  ColorI.mk4 (clampI (c.red - other.red)) (clampI (c.green - other.green))
    (clampI (c.blue - other.blue)) c.alpha

/-- C++ `Color::operator*` (scalar), integral branch. -/
def ColorI.smul (c : ColorI) (scalar : Int) : ColorI :=
  ColorI.mk4 (clampI (c.red * scalar)) (clampI (c.green * scalar))
    (clampI (c.blue * scalar)) c.alpha

/-- C++ `Color::grayscale`, integral branch:
`clamp((299 R + 587 G + 114 B) / 1000)` with C++ `int` division. -/
def ColorI.grayscale (c : ColorI) : ColorI :=
  let luminance :=
    clampI (Int.tdiv (299 * c.red + 587 * c.green + 114 * c.blue) 1000)
  ColorI.mk4 luminance luminance luminance c.alpha

/-- C++ `Color::inverted`, integral branch: `Color(255 − R, 255 − G, 255 − B,
_alpha)`. -/
def ColorI.inverted (c : ColorI) : ColorI :=
  ColorI.mk4 (255 - c.red) (255 - c.green) (255 - c.blue) c.alpha

/-- C++ `Color::lerp`, integral branch: blend in the wider domain, then
divide by `maxValue() = 255` and clamp. -/
def ColorI.lerp (c other : ColorI) (t : Int) : ColorI :=
  let t2 := clampI t
  let oneMinusT := 255 - t2
  ColorI.mk4 (clampI (Int.tdiv (oneMinusT * c.red + t2 * other.red) 255))
    (clampI (Int.tdiv (oneMinusT * c.green + t2 * other.green) 255))
    (clampI (Int.tdiv (oneMinusT * c.blue + t2 * other.blue) 255))
    (clampI (Int.tdiv (oneMinusT * c.alpha + t2 * other.alpha) 255))

/-- C++ `Color::blendOver`, integral branch, exactly as written in the
source: the alpha line divides `a + (255 − a) * background_a` by 255
without first scaling the bare `a` term by `maxValue()`. -/
def ColorI.blendOver (c background : ColorI) : ColorI :=
  let a := c.alpha
  let oneMinusA := 255 - a
  ColorI.mk4 (clampI (Int.tdiv (a * c.red + oneMinusA * background.red) 255))
    (clampI (Int.tdiv (a * c.green + oneMinusA * background.green) 255))
    (clampI (Int.tdiv (a * c.blue + oneMinusA * background.blue) 255))
    (clampI (Int.tdiv (a + oneMinusA * background.alpha) 255))

/-- C++ `Color::lighter`, integral branch. -/
def ColorI.lighter (c : ColorI) (factor : Int) : ColorI :=
  c.lerp (ColorI.mk4 255 255 255 c.alpha) (clampI factor)

/-- C++ `Color::darker`, integral branch. -/
def ColorI.darker (c : ColorI) (factor : Int) : ColorI :=
  c.lerp (ColorI.mk4 0 0 0 c.alpha) (clampI factor)

/-- The canonical floating range: every component in `[0, 1]`. -/
def InRangeF (c : ColorF) : Prop :=
  0 ≤ c.red ∧ c.red ≤ 1 ∧ 0 ≤ c.green ∧ c.green ≤ 1 ∧
  0 ≤ c.blue ∧ c.blue ≤ 1 ∧ 0 ≤ c.alpha ∧ c.alpha ≤ 1

/-- The canonical integral range: every component in `[0, 255]`. -/
def InRangeI (c : ColorI) : Prop :=
  0 ≤ c.red ∧ c.red ≤ 255 ∧ 0 ≤ c.green ∧ c.green ≤ 255 ∧
  0 ≤ c.blue ∧ c.blue ≤ 255 ∧ 0 ≤ c.alpha ∧ c.alpha ≤ 255

theorem clampF_nonneg (v : ℚ) : 0 ≤ clampF v := le_max_left _ _

theorem clampF_le_one (v : ℚ) : clampF v ≤ 1 :=
  max_le (by norm_num) (min_le_left _ _)

theorem clampF_eq_self {v : ℚ} (h0 : 0 ≤ v) (h1 : v ≤ 1) : clampF v = v := by
  unfold clampF
  rw [min_eq_right h1, max_eq_right h0]

theorem clampI_nonneg (v : Int) : 0 ≤ clampI v := le_max_left _ _

theorem clampI_le (v : Int) : clampI v ≤ 255 :=
  max_le (by norm_num) (min_le_left _ _)

theorem clampI_eq_self {v : Int} (h0 : 0 ≤ v) (h1 : v ≤ 255) : clampI v = v := by
  unfold clampI
  rw [min_eq_right h1, max_eq_right h0]

theorem inRangeF_mk4 (r g b a : ℚ) : InRangeF (ColorF.mk4 r g b a) :=
  ⟨clampF_nonneg r, clampF_le_one r, clampF_nonneg g, clampF_le_one g,
    clampF_nonneg b, clampF_le_one b, clampF_nonneg a, clampF_le_one a⟩

theorem inRangeI_mk4 (r g b a : Int) : InRangeI (ColorI.mk4 r g b a) :=
  ⟨clampI_nonneg r, clampI_le r, clampI_nonneg g, clampI_le g,
    clampI_nonneg b, clampI_le b, clampI_nonneg a, clampI_le a⟩

/-- Claim C8: every `Color` constructor and every mutator (the setters
under the class invariant, `setRGBA`, and all `Color`-returning
operations) yields components inside the canonical range — `[0,1]`
floating, `[0,255]` integral — with no error possible (all operations
are total functions), and constructing from already-in-range values
stores them unchanged. -/
theorem color_always_in_range :
    (∀ r g b a : ℚ, InRangeF (ColorF.mk4 r g b a)) ∧
    (∀ r g b : ℚ, InRangeF (ColorF.mk3 r g b)) ∧
    InRangeF ColorF.mkDefault ∧
    (∀ (c : ColorF) (v : ℚ), InRangeF c →
      InRangeF (c.setRed v) ∧ InRangeF (c.setGreen v) ∧
      InRangeF (c.setBlue v) ∧ InRangeF (c.setAlpha v)) ∧
    (∀ (c : ColorF) (r g b a : ℚ), InRangeF (c.setRGBA r g b a)) ∧
    (∀ c other : ColorF, InRangeF (c.add other) ∧ InRangeF (c.sub other) ∧
      InRangeF (c.blendOver other)) ∧
    (∀ (c : ColorF) (t : ℚ), InRangeF (c.smul t) ∧ InRangeF c.grayscale ∧
      InRangeF c.inverted ∧ InRangeF (c.lighter t) ∧ InRangeF (c.darker t)) ∧
    (∀ (c other : ColorF) (t : ℚ), InRangeF (c.lerp other t)) ∧
    (∀ r g b a : ℚ, 0 ≤ r → r ≤ 1 → 0 ≤ g → g ≤ 1 → 0 ≤ b → b ≤ 1 →
      0 ≤ a → a ≤ 1 → ColorF.mk4 r g b a = ⟨r, g, b, a⟩) ∧
    (∀ r g b a : Int, InRangeI (ColorI.mk4 r g b a)) ∧
    (∀ r g b : Int, InRangeI (ColorI.mk3 r g b)) ∧
    InRangeI ColorI.mkDefault ∧
    (∀ (c : ColorI) (v : Int), InRangeI c →
      InRangeI (c.setRed v) ∧ InRangeI (c.setGreen v) ∧
      InRangeI (c.setBlue v) ∧ InRangeI (c.setAlpha v)) ∧
    (∀ (c : ColorI) (r g b a : Int), InRangeI (c.setRGBA r g b a)) ∧
    (∀ c other : ColorI, InRangeI (c.add other) ∧ InRangeI (c.sub other) ∧
      InRangeI (c.blendOver other)) ∧
    (∀ (c : ColorI) (t : Int), InRangeI (c.smul t) ∧ InRangeI c.grayscale ∧
      InRangeI c.inverted ∧ InRangeI (c.lighter t) ∧ InRangeI (c.darker t)) ∧
    (∀ (c other : ColorI) (t : Int), InRangeI (c.lerp other t)) ∧
    (∀ r g b a : Int, 0 ≤ r → r ≤ 255 → 0 ≤ g → g ≤ 255 → 0 ≤ b → b ≤ 255 →
      0 ≤ a → a ≤ 255 → ColorI.mk4 r g b a = ⟨r, g, b, a⟩) := by
  refine ⟨fun r g b a => inRangeF_mk4 _ _ _ _,
    fun r g b => ⟨clampF_nonneg r, clampF_le_one r, clampF_nonneg g,
      clampF_le_one g, clampF_nonneg b, clampF_le_one b,
      by norm_num [ColorF.mk3], by norm_num [ColorF.mk3]⟩,
    by norm_num [InRangeF, ColorF.mkDefault],
    fun c v h => ⟨⟨clampF_nonneg v, clampF_le_one v, h.2.2⟩,
      ⟨h.1, h.2.1, clampF_nonneg v, clampF_le_one v, h.2.2.2.2⟩,
      ⟨h.1, h.2.1, h.2.2.1, h.2.2.2.1, clampF_nonneg v, clampF_le_one v,
        h.2.2.2.2.2.2⟩,
      ⟨h.1, h.2.1, h.2.2.1, h.2.2.2.1, h.2.2.2.2.1, h.2.2.2.2.2.1,
        clampF_nonneg v, clampF_le_one v⟩⟩,
    fun c r g b a => inRangeF_mk4 _ _ _ _,
    fun c other => ⟨inRangeF_mk4 _ _ _ _, inRangeF_mk4 _ _ _ _,
      inRangeF_mk4 _ _ _ _⟩,
    fun c t => ⟨inRangeF_mk4 _ _ _ _, inRangeF_mk4 _ _ _ _,
      inRangeF_mk4 _ _ _ _, inRangeF_mk4 _ _ _ _, inRangeF_mk4 _ _ _ _⟩,
    fun c other t => inRangeF_mk4 _ _ _ _,
    ?_,
    fun r g b a => inRangeI_mk4 _ _ _ _,
    fun r g b => ⟨clampI_nonneg r, clampI_le r, clampI_nonneg g,
      clampI_le g, clampI_nonneg b, clampI_le b,
      by norm_num [ColorI.mk3], by norm_num [ColorI.mk3]⟩,
    by norm_num [InRangeI, ColorI.mkDefault],
    fun c v h => ⟨⟨clampI_nonneg v, clampI_le v, h.2.2⟩,
      ⟨h.1, h.2.1, clampI_nonneg v, clampI_le v, h.2.2.2.2⟩,
      ⟨h.1, h.2.1, h.2.2.1, h.2.2.2.1, clampI_nonneg v, clampI_le v,
        h.2.2.2.2.2.2⟩,
      ⟨h.1, h.2.1, h.2.2.1, h.2.2.2.1, h.2.2.2.2.1, h.2.2.2.2.2.1,
        clampI_nonneg v, clampI_le v⟩⟩,
    fun c r g b a => inRangeI_mk4 _ _ _ _,
    fun c other => ⟨inRangeI_mk4 _ _ _ _, inRangeI_mk4 _ _ _ _,
      inRangeI_mk4 _ _ _ _⟩,
    fun c t => ⟨inRangeI_mk4 _ _ _ _, inRangeI_mk4 _ _ _ _,
      inRangeI_mk4 _ _ _ _, inRangeI_mk4 _ _ _ _, inRangeI_mk4 _ _ _ _⟩,
    fun c other t => inRangeI_mk4 _ _ _ _,
    ?_⟩
  · intro r g b a hr0 hr1 hg0 hg1 hb0 hb1 ha0 ha1
    simp only [ColorF.mk4]
    rw [clampF_eq_self hr0 hr1, clampF_eq_self hg0 hg1,
      clampF_eq_self hb0 hb1, clampF_eq_self ha0 ha1]
  · intro r g b a hr0 hr1 hg0 hg1 hb0 hb1 ha0 ha1
    simp only [ColorI.mk4]
    rw [clampI_eq_self hr0 hr1, clampI_eq_self hg0 hg1,
      clampI_eq_self hb0 hb1, clampI_eq_self ha0 ha1]

/-- Witness for C8: the setter clauses at the in-range opaque red with
an out-of-range argument, and the identity clauses at concrete in-range
component values, all obtained from the theorem with its hypotheses
discharged. -/
theorem color_always_in_range_witness :
    (InRangeF (ColorF.mk 1 0 0 1) ∧
      (InRangeF ((ColorF.mk 1 0 0 1).setRed 2) ∧
        InRangeF ((ColorF.mk 1 0 0 1).setGreen 2) ∧
        InRangeF ((ColorF.mk 1 0 0 1).setBlue 2) ∧
        InRangeF ((ColorF.mk 1 0 0 1).setAlpha 2))) ∧
    ColorF.mk4 (1/2) (1/3) 0 1 = ColorF.mk (1/2) (1/3) 0 1 ∧
    (InRangeI (ColorI.mk 255 0 0 255) ∧
      (InRangeI ((ColorI.mk 255 0 0 255).setRed 300) ∧
        InRangeI ((ColorI.mk 255 0 0 255).setGreen 300) ∧
        InRangeI ((ColorI.mk 255 0 0 255).setBlue 300) ∧
        InRangeI ((ColorI.mk 255 0 0 255).setAlpha 300))) ∧
    ColorI.mk4 7 8 9 10 = ColorI.mk 7 8 9 10 :=
  ⟨⟨by norm_num [InRangeF],
      color_always_in_range.2.2.2.1 (ColorF.mk 1 0 0 1) 2
        (by norm_num [InRangeF])⟩,
    color_always_in_range.2.2.2.2.2.2.2.2.1 (1/2) (1/3) 0 1
      (by norm_num) (by norm_num) (by norm_num) (by norm_num)
      (by norm_num) (by norm_num) (by norm_num) (by norm_num),
    ⟨by norm_num [InRangeI],
      color_always_in_range.2.2.2.2.2.2.2.2.2.2.2.2.1 (ColorI.mk 255 0 0 255)
        300 (by norm_num [InRangeI])⟩,
    color_always_in_range.2.2.2.2.2.2.2.2.2.2.2.2.2.2.2.2.2 7 8 9 10
      (by norm_num) (by norm_num) (by norm_num) (by norm_num)
      (by norm_num) (by norm_num) (by norm_num) (by norm_num)⟩

/-- Claim C10: for colors satisfying the class invariant (all components
in canonical range), `inverted` is an involution and preserves the alpha
component exactly, in both the floating and the integral domain. -/
theorem inverted_involution :
    (∀ c : ColorF, InRangeF c →
      c.inverted.inverted = c ∧ c.inverted.alpha = c.alpha) ∧
    (∀ c : ColorI, InRangeI c →
      c.inverted.inverted = c ∧ c.inverted.alpha = c.alpha) := by
  constructor
  · rintro ⟨r, g, b, a⟩ ⟨hr0, hr1, hg0, hg1, hb0, hb1, ha0, ha1⟩
    dsimp only at hr0 hr1 hg0 hg1 hb0 hb1 ha0 ha1
    have e1 : (ColorF.mk r g b a).inverted = ⟨1 - r, 1 - g, 1 - b, a⟩ := by
      simp only [ColorF.inverted, ColorF.mk4]
      rw [clampF_eq_self (by linarith) (by linarith),
        clampF_eq_self (by linarith) (by linarith),
        clampF_eq_self (by linarith) (by linarith), clampF_eq_self ha0 ha1]
    refine ⟨?_, by rw [e1]⟩
    rw [e1]
    simp only [ColorF.inverted, ColorF.mk4]
    rw [clampF_eq_self (by linarith) (by linarith),
      clampF_eq_self (by linarith) (by linarith),
      clampF_eq_self (by linarith) (by linarith), clampF_eq_self ha0 ha1]
    simp [ColorF.mk.injEq]
  · rintro ⟨r, g, b, a⟩ ⟨hr0, hr1, hg0, hg1, hb0, hb1, ha0, ha1⟩
    dsimp only at hr0 hr1 hg0 hg1 hb0 hb1 ha0 ha1
    have e1 : (ColorI.mk r g b a).inverted = ⟨255 - r, 255 - g, 255 - b, a⟩ := by
      simp only [ColorI.inverted, ColorI.mk4]
      rw [clampI_eq_self (by omega) (by omega),
        clampI_eq_self (by omega) (by omega),
        clampI_eq_self (by omega) (by omega), clampI_eq_self ha0 ha1]
    refine ⟨?_, by rw [e1]⟩
    rw [e1]
    simp only [ColorI.inverted, ColorI.mk4]
    rw [clampI_eq_self (by omega) (by omega),
      clampI_eq_self (by omega) (by omega),
      clampI_eq_self (by omega) (by omega), clampI_eq_self ha0 ha1]
    simp [ColorI.mk.injEq]

/-- Witness for C10 at the in-range colors `RGBA(1/4, 1/2, 1, 3/4)` and
`RGBA(10, 20, 30, 40)`. -/
theorem inverted_involution_witness :
    (InRangeF (ColorF.mk (1/4) (1/2) 1 (3/4)) ∧
      (ColorF.mk (1/4) (1/2) 1 (3/4)).inverted.inverted =
          ColorF.mk (1/4) (1/2) 1 (3/4) ∧
      (ColorF.mk (1/4) (1/2) 1 (3/4)).inverted.alpha = (3/4 : ℚ)) ∧
    (InRangeI (ColorI.mk 10 20 30 40) ∧
      (ColorI.mk 10 20 30 40).inverted.inverted = ColorI.mk 10 20 30 40 ∧
      (ColorI.mk 10 20 30 40).inverted.alpha = (40 : Int)) :=
  ⟨⟨by norm_num [InRangeF],
      inverted_involution.1 (ColorF.mk (1/4) (1/2) 1 (3/4))
        (by norm_num [InRangeF])⟩,
    ⟨by norm_num [InRangeI],
      inverted_involution.2 (ColorI.mk 10 20 30 40)
        (by norm_num [InRangeI])⟩⟩

/-- Claim C1 (code evaluation at the failing input): blending the fully
opaque integral red `RGBA(255, 0, 0, 255)` over the opaque blue
`RGBA(0, 0, 255, 255)` produces alpha `(255 + 0·255)/255 = 1`, not the
255 that the specified "over" compositing formula requires for an
opaque foreground. -/
theorem blendOver_integral_alpha_at_opaque :
    ((ColorI.mk4 255 0 0 255).blendOver (ColorI.mk4 0 0 255 255)).alpha = 1 ∧
    (1 : Int) ≠ 255 := by
  exact ⟨by decide, by decide⟩

/-- Embedding of `utility::math::Vector<float, n>`: components indexed
by `Fin n`, over `ℝ` (idealized floating arithmetic). -/
abbrev Vec (n : ℕ) := Fin n → ℝ

/-- C++ `Vector::dot`: sum of component-wise products. -/
def dot {n : ℕ} (v other : Vec n) : ℝ := ∑ i, v i * other i

/-- C++ `Vector::magnitude`: `std::sqrt` of the sum of squared components. -/
noncomputable def magnitude {n : ℕ} (v : Vec n) : ℝ :=
  Real.sqrt (∑ i, v i * v i)

/-- C++ `Vector::operator/` (scalar): throws `std::invalid_argument` when the
scalar compares equal to zero, otherwise divides each component. -/
noncomputable def scalarDiv {n : ℕ} (v : Vec n) (scalar : ℝ) :
    Except Err (Vec n) :=
  if scalar = 0 then .error .invalidArgument
  else .ok (fun i => v i / scalar)

/-- C++ `Vector::normalized`: throws `std::runtime_error` when the magnitude
compares equal to zero (no epsilon), otherwise `*this / mag`. -/
noncomputable def normalized {n : ℕ} (v : Vec n) : Except Err (Vec n) :=
  if magnitude v = 0 then .error .runtimeFailure
  else scalarDiv v (magnitude v)

/-- C++ `Vector::cross`, available only at dimension 3. -/
def cross (v other : Vec 3) : Vec 3 :=
  ![v 1 * other 2 - v 2 * other 1,
    v 2 * other 0 - v 0 * other 2,
    v 0 * other 1 - v 1 * other 0]

/-- Claim C6: the 3D cross product is orthogonal to both of its
operands under exact arithmetic. -/
theorem cross_orthogonal (a b : Vec 3) :
    dot (cross a b) a = 0 ∧ dot (cross a b) b = 0 := by
  constructor <;>
  · simp [dot, cross, Fin.sum_univ_three]
    ring

/-- Claim C3: `normalized` fails with the `RuntimeFailure` error kind
exactly when the magnitude is exactly zero; otherwise it returns the
vector divided component-wise by its magnitude, and that result has
magnitude exactly 1 (the receiver is never mutated: the embedding is a
pure function of it; `normalize` is the same computation). -/
theorem normalized_spec {n : ℕ} (v : Vec n) :
    (normalized v = Except.error Err.runtimeFailure ↔ magnitude v = 0) ∧
    (magnitude v ≠ 0 →
      normalized v = Except.ok (fun i => v i / magnitude v) ∧
      ∀ w : Vec n, normalized v = Except.ok w → magnitude w = 1) := by
  have hS : 0 ≤ ∑ i, v i * v i :=
    Finset.sum_nonneg fun i _ => mul_self_nonneg (v i)
  constructor
  · by_cases h : magnitude v = 0
    · simp [normalized, h]
    · simp [normalized, scalarDiv, h]
  · intro h
    have hok : normalized v = Except.ok (fun i => v i / magnitude v) := by
      simp [normalized, scalarDiv, h]
    refine ⟨hok, fun w hw => ?_⟩
    rw [hok] at hw
    simp only [Except.ok.injEq] at hw
    subst hw
    have hS0 : (∑ i, v i * v i) ≠ 0 := by
      intro h0
      apply h
      simp [magnitude, h0]
    have key : (∑ i, v i / magnitude v * (v i / magnitude v)) = 1 := by
      have e : (∑ i, v i / magnitude v * (v i / magnitude v))
          = (∑ i, v i * v i) / (magnitude v * magnitude v) := by
        rw [Finset.sum_div]
        exact Finset.sum_congr rfl fun i _ => div_mul_div_comm (v i) _ (v i) _
      rw [e, magnitude, Real.mul_self_sqrt hS, div_self hS0]
    have em : magnitude (fun i => v i / magnitude v)
        = Real.sqrt (∑ i, v i / magnitude v * (v i / magnitude v)) := rfl
    rw [em, key, Real.sqrt_one]

/-- Witness for C3 at the vector `(3, 4, 0)`, whose magnitude is 5. -/
theorem normalized_spec_witness :
    magnitude (![3, 4, 0] : Vec 3) ≠ 0 ∧
    (normalized (![3, 4, 0] : Vec 3) =
        Except.ok
          (fun i => (![3, 4, 0] : Vec 3) i / magnitude (![3, 4, 0] : Vec 3)) ∧
      ∀ w : Vec 3,
        normalized (![3, 4, 0] : Vec 3) = Except.ok w → magnitude w = 1) := by
  have h1 : (∑ i, (![3, 4, 0] : Vec 3) i * (![3, 4, 0] : Vec 3) i) = 25 := by
    norm_num [Fin.sum_univ_three]
  have hmag : magnitude (![3, 4, 0] : Vec 3) = 5 := by
    simp only [magnitude]
    rw [h1, show (25 : ℝ) = 5 ^ 2 by norm_num,
      Real.sqrt_sq (by norm_num : (0 : ℝ) ≤ 5)]
  have hne : magnitude (![3, 4, 0] : Vec 3) ≠ 0 := by
    rw [hmag]
    norm_num
  exact ⟨hne, (normalized_spec (![3, 4, 0] : Vec 3)).2 hne⟩

end Utility
